import Mathlib

/-!
Shallow embedding of the diself gateway client (src/src/gateway/gateway.rs,
src/src/gateway/connection.rs, src/src/client/collectors.rs) and proofs of
the spec's testable properties about it.

Asynchrony is embedded by making every external interaction explicit:
the result of each `open_session` attempt (connect / HELLO / handshake send)
is drawn from an oracle list, random jitter values are passed as arguments,
and the collector task's successive `rx.recv()` outcomes are an input list.
-/

namespace Diself

/-- Minimal model of `serde_json::Value` as used by the gateway code:
null, booleans, integers (JSON numbers restricted to integers, enough to
distinguish unsigned from signed for `as_u64`), strings, arrays, objects. -/
inductive JVal where
  | null
  | bool (b : Bool)
  | num (n : Int)
  | str (s : String)
  | arr (xs : List JVal)
  | obj (fields : List (String × JVal))

/-- `Value::get(key)`: field lookup on objects, `None` on anything else. -/
def JVal.get : JVal → String → Option JVal
  | .obj fields, key => fields.lookup key
  | _, _ => none

/-- `Value::as_u64`: an unsigned integer number, `None` otherwise. -/
def JVal.as_u64 : JVal → Option Nat
  | .num n => if 0 ≤ n then some n.toNat else none
  | _ => none

/-- `Value::as_str`. -/
def JVal.as_str : JVal → Option String
  | .str s => some s
  | _ => none

/-- `Value::as_bool`. -/
def JVal.as_bool : JVal → Option Bool
  | .bool b => some b
  | _ => none

/-- `value[key]` (serde `Index`): missing keys yield `Null`. -/
def JVal.index (v : JVal) (key : String) : JVal :=
  (v.get key).getD .null

def DEFAULT_GATEWAY_URL : String := "wss://gateway.discord.gg/?v=10&encoding=json"

def INVALID_SESSION_RETRY_DELAY_MS : Nat := 1000

def MAX_RECONNECT_BACKOFF_MS : Nat := 60000

/-- The `Gateway` struct (gateway.rs). `connection`/`heartbeat` are modelled
by presence flags: their only observable uses in the state machine are
"is there one" and the send/receive effects recorded as `Action`s. -/
structure Gateway where
  token : String
  hasConnection : Bool
  hasHeartbeat : Bool
  heartbeat_interval_ms : Nat
  awaiting_heartbeat_ack : Bool
  pending_heartbeat : Bool
  sequence : Option Nat
  session_id : Option String
  resume_gateway_url : Option String
  reconnect_attempts : Nat
deriving DecidableEq

/-- The initial struct literal built by `Gateway::connect` before its first
`reconnect(true)` call. -/
def Gateway.init (token : String) : Gateway where
  token := token
  hasConnection := false
  hasHeartbeat := false
  heartbeat_interval_ms := 0
  awaiting_heartbeat_ack := false
  pending_heartbeat := false
  sequence := none
  session_id := none
  resume_gateway_url := none
  reconnect_attempts := 0

/-- Observable side effects of the gateway loop, in program order.
`handshakeSent` records the resume-vs-identify choice together with the
`session_id`/`sequence` state at the moment the payload is built. -/
inductive Action where
  | sleep (ms : Nat)
  | connect (url : String)
  | handshakeSent (resume : Bool) (session_id : Option String) (seq : Option Nat)
  | sendHeartbeat (seq : Option Nat)
deriving DecidableEq

/-- Outcome of one `open_session` attempt, supplied by the environment:
either no valid HELLO was obtained (connect error, closed stream, wrong
opcode, or missing `heartbeat_interval` — none of which mutate state), or a
HELLO with the given interval arrived, after which sending the handshake
payload succeeded or failed. -/
inductive AttemptResult where
  | noHello
  | hello (interval : Nat) (sendOk : Bool)
deriving DecidableEq

/-- `Gateway::backoff_with_jitter`, base part:
`min(2^min(attempt, 6) seconds, 60 s)` in milliseconds. -/
def backoffBaseMs (attempt : Nat) : Nat :=
  min (2 ^ (min attempt 6) * 1000) MAX_RECONNECT_BACKOFF_MS

/-- Upper bound of the jitter drawn by `backoff_with_jitter`:
`gen_range(0..=base_ms / 5)`. -/
def maxJitterMs (attempt : Nat) : Nat :=
  backoffBaseMs attempt / 5

/-- `Gateway::backoff_with_jitter` with the random draw made explicit:
the waited delay is the capped base plus the jitter actually drawn. -/
def backoff_with_jitter (attempt jitter : Nat) : Nat :=
  backoffBaseMs attempt + jitter

/-- `Gateway::can_resume`. -/
def Gateway.can_resume (g : Gateway) : Bool :=
  g.session_id.isSome && g.sequence.isSome

/-- `Gateway::open_session`: connect to the resume URL (or the default),
require HELLO, record the negotiated interval, send resume or identify,
then install connection, timer, and the initial pending heartbeat.
Returns (new state, emitted actions, success). -/
def Gateway.open_session (g : Gateway) (resume : Bool) (r : AttemptResult) :
    Gateway × List Action × Bool :=
  let url := g.resume_gateway_url.getD DEFAULT_GATEWAY_URL
  match r with
  | .noHello => (g, [.connect url], false)
  | .hello interval sendOk =>
      let g1 := { g with heartbeat_interval_ms := interval }
      let acts := [.connect url, .handshakeSent resume g.session_id g.sequence]
      if sendOk then
        ({ g1 with hasConnection := true, hasHeartbeat := true,
                   awaiting_heartbeat_ack := false, pending_heartbeat := true },
         acts, true)
      else
        (g1, acts, false)

/-- The retry loop inside `Gateway::reconnect`: sleep the backoff when the
attempt counter is positive, try `open_session`, reset the counter on
success, otherwise bump the counter, degrade resume to identify, and retry.
Each oracle entry carries the jitter drawn for that attempt's backoff.
`none` means the oracle was exhausted before a successful handshake. -/
def Gateway.reconnectLoop (g : Gateway) (use_resume : Bool) :
    List (Nat × AttemptResult) → Option (Gateway × List Action)
  | [] => none
  | (jitter, r) :: rest =>
      let pre : List Action :=
        if g.reconnect_attempts > 0 then
          [.sleep (backoff_with_jitter g.reconnect_attempts jitter)]
        else []
      match g.open_session use_resume r with
      | (g1, acts, true) =>
          some ({ g1 with reconnect_attempts := 0 }, pre ++ acts)
      | (g1, acts, false) =>
          let g2 := { g1 with reconnect_attempts := g1.reconnect_attempts + 1 }
          let use2 := if use_resume then false else use_resume
          match g2.reconnectLoop use2 rest with
          | none => none
          | some (gf, acts2) => some (gf, pre ++ acts ++ acts2)

/-- `Gateway::reconnect`: drop the old connection and timer, clear the
heartbeat flags, then run the retry loop, resuming only when preferred and
the session is resumable. -/
def Gateway.reconnect (g : Gateway) (prefer_resume : Bool)
    (oracle : List (Nat × AttemptResult)) : Option (Gateway × List Action) :=
  let g0 := { g with hasConnection := false, hasHeartbeat := false,
                     awaiting_heartbeat_ack := false, pending_heartbeat := false }
  g0.reconnectLoop (prefer_resume && g0.can_resume) oracle

/-- `Gateway::handle_control_opcode`. The returned `Option JVal` is the
dispatch payload surfaced to the caller (only for opcode 0). The outer
`Option` is `none` only when a required reconnect ran out of oracle. -/
def Gateway.handle_control_opcode (g : Gateway) (payload : JVal)
    (oracle : List (Nat × AttemptResult)) :
    Option (Gateway × List Action × Option JVal) :=
  match (payload.get "op").bind JVal.as_u64 with
  | some 0 =>
      let g1 :=
        match (payload.get "t").bind JVal.as_str with
        | some "READY" =>
            { g with
              session_id := ((payload.index "d").index "session_id").as_str,
              resume_gateway_url :=
                (((payload.index "d").index "resume_gateway_url").as_str).map
                  (fun url => url ++ "/?v=10&encoding=json") }
        | _ => g
      some (g1, [], some payload)
  | some 1 => some ({ g with pending_heartbeat := true }, [], none)
  | some 7 =>
      match g.reconnect true oracle with
      | none => none
      | some (g1, acts) => some (g1, acts, none)
  | some 9 =>
      let can_resume := ((payload.index "d").as_bool).getD false
      let g1 :=
        if can_resume then g else { g with session_id := none, sequence := none }
      match g1.reconnect can_resume oracle with
      | none => none
      | some (g2, acts) =>
          some (g2, .sleep INVALID_SESSION_RETRY_DELAY_MS :: acts, none)
  | some 10 => some (g, [], none)
  | some 11 => some ({ g with awaiting_heartbeat_ack := false }, [], none)
  | _ => some (g, [], none)

/-- The sequence update at the top of `next_event`'s receive arm:
`if let Some(seq) = payload.get("s").and_then(|s| s.as_u64())`. It runs for
every inbound payload, before the opcode switch. -/
def Gateway.applySeqUpdate (g : Gateway) (payload : JVal) : Gateway :=
  match (payload.get "s").bind JVal.as_u64 with
  | some seq => { g with sequence := some seq }
  | none => g

/-- One pass of `next_event`'s receive arm for a decoded payload:
sequence update, then the opcode switch. -/
def Gateway.receiveStep (g : Gateway) (payload : JVal)
    (oracle : List (Nat × AttemptResult)) :
    Option (Gateway × List Action × Option JVal) :=
  (g.applySeqUpdate payload).handle_control_opcode payload oracle

/-- `Gateway::send_heartbeat`: emits an opcode-1 payload carrying the
current sequence and marks the ack as awaited. -/
def Gateway.send_heartbeat (g : Gateway) : Gateway × Action :=
  ({ g with awaiting_heartbeat_ack := true }, .sendHeartbeat g.sequence)

/-- The top of `next_event`'s loop body: a pending heartbeat is sent before
anything else is awaited, and the flag is cleared. -/
def Gateway.loopTop (g : Gateway) : Gateway × List Action :=
  if g.pending_heartbeat then
    match g.send_heartbeat with
    | (g1, a) => ({ g1 with pending_heartbeat := false }, [a])
  else (g, [])

/-- The `heartbeat.tick()` arm of `next_event`'s select: a tick while an
ack is still outstanding forces `reconnect(true)`; otherwise the tick just
marks a heartbeat as pending for the next loop top. -/
def Gateway.tickStep (g : Gateway) (oracle : List (Nat × AttemptResult)) :
    Option (Gateway × List Action) :=
  if g.awaiting_heartbeat_ack then
    g.reconnect true oracle
  else
    some ({ g with pending_heartbeat := true }, [])

/-- Repeated receive arms of `next_event` over a list of inbound payloads
(no opcode here ever consults the reconnect oracle in the runs we study,
so it is passed empty). -/
def Gateway.processPayloads (g : Gateway) : List JVal → Option Gateway
  | [] => some g
  | p :: ps =>
      match g.receiveStep p [] with
      | none => none
      | some (g1, _, _) => g1.processPayloads ps

/-- Modelled from the spec: the `events.rs` module declared by
`src/client/mod.rs` is absent from the sources, so the dispatch-event kind
is reconstructed from the spec's "closed enumeration + unknown fallback"
and the variants referenced by `client.rs` and `collectors.rs`. -/
inductive DispatchEventType where
  | ready
  | readySupplemental
  | messageCreate
  | messageUpdate
  | messageDelete
  | messageReactionAdd
  | messageReactionRemove
  | unknown (name : String)
deriving DecidableEq

/-- The `DispatchEvent` struct broadcast through the `CollectorHub`
(fields as constructed in tests/collectors.rs and client.rs). -/
structure DispatchEvent where
  kind : DispatchEventType
  sequence : Option Nat
  data : JVal

/-- `ReactionEventType` (collectors.rs). -/
inductive ReactionEventType where
  | add
  | remove
deriving DecidableEq

/-- `ReactionCollectEvent` (collectors.rs); the emoji type is a parameter
standing for `model::Emoji`, decoded by an abstract serde decoder. -/
structure ReactionCollectEvent (ε : Type) where
  kind : ReactionEventType
  channel_id : String
  message_id : String
  user_id : String
  guild_id : Option String
  emoji : ε

/-- `ReactionCollectEvent::from_dispatch`: the event kind is matched first
(anything but reaction add/remove yields `None`), then the payload fields
are extracted. -/
def ReactionCollectEvent.from_dispatch {ε : Type} (emojiDecode : JVal → Option ε)
    (event : DispatchEvent) : Option (ReactionCollectEvent ε) := do
  let kind ←
    match event.kind with
    | .messageReactionAdd => some ReactionEventType.add
    | .messageReactionRemove => some ReactionEventType.remove
    | _ => none
  let channel_id ← (event.data.get "channel_id").bind JVal.as_str
  let message_id ← (event.data.get "message_id").bind JVal.as_str
  let user_id ← (event.data.get "user_id").bind JVal.as_str
  let guild_id := (event.data.get "guild_id").bind JVal.as_str
  let emoji ← (event.data.get "emoji").bind emojiDecode
  pure { kind := kind, channel_id := channel_id, message_id := message_id,
         user_id := user_id, guild_id := guild_id, emoji := emoji }

/-- One outcome of the collector task's wait for the next broadcast event:
an event, a lag notification (the subscriber fell behind the broadcast
buffer), a closed broadcaster, or the deadline elapsing (`options.time`
appears only through this outcome). -/
inductive RecvResult where
  | item (e : DispatchEvent)
  | lagged (missed : Nat)
  | closed
  | timedOut

/-- The `if let Some(max) = options.max { if collected >= max { break } }`
guard at the top of each collector task iteration. -/
def maxReached (max : Option Nat) (collected : Nat) : Bool :=
  match max with
  | some m => decide (collected ≥ m)
  | none => false

/-- The common shape of the two collector task loops in `CollectorHub`:
check the item bound, wait for the next receive outcome, skip lags, stop on
close or deadline, and deliver `extract e` when it produces a value
(counting it). Returns the delivered items in order, paired with whether
the task terminated (closing its output queue) rather than still waiting.
The output `send` is modelled as succeeding (the consumer holds the
collector handle). -/
def collectorTaskLoop {τ : Type} (max : Option Nat)
    (extract : DispatchEvent → Option τ) (collected : Nat) :
    List RecvResult → List τ × Bool
  | [] => ([], maxReached max collected)
  | r :: rest =>
      if maxReached max collected then ([], true)
      else
        match r with
        | .closed => ([], true)
        | .timedOut => ([], true)
        | .lagged _ => collectorTaskLoop max extract collected rest
        | .item e =>
            match extract e with
            | none => collectorTaskLoop max extract collected rest
            | some v =>
                let res := collectorTaskLoop max extract (collected + 1) rest
                (v :: res.1, res.2)

/-- The per-event body of `message_collector`'s task: discard events whose
kind is not `MessageCreate`, then decode a `Message` (abstract serde
decoder `decode`), then apply the caller's filter. -/
def messageExtract {μ : Type} (decode : JVal → Option μ) (filter : μ → Bool)
    (event : DispatchEvent) : Option μ :=
  if event.kind ≠ DispatchEventType.messageCreate then none
  else
    match decode event.data with
    | none => none
    | some message => if filter message then some message else none

/-- The task loop spawned by `CollectorHub::message_collector`. -/
def messageCollectorLoop {μ : Type} (max : Option Nat)
    (decode : JVal → Option μ) (filter : μ → Bool) :
    Nat → List RecvResult → List μ × Bool :=
  collectorTaskLoop max (messageExtract decode filter)

/-- The per-event body of `reaction_collector`'s task:
`ReactionCollectEvent::from_dispatch`, then the caller's filter. -/
def reactionExtract {ε : Type} (emojiDecode : JVal → Option ε)
    (filter : ReactionCollectEvent ε → Bool) (event : DispatchEvent) :
    Option (ReactionCollectEvent ε) :=
  match ReactionCollectEvent.from_dispatch emojiDecode event with
  | none => none
  | some reactionEvent =>
      if filter reactionEvent then some reactionEvent else none

/-- The task loop spawned by `CollectorHub::reaction_collector`. -/
def reactionCollectorLoop {ε : Type} (max : Option Nat)
    (emojiDecode : JVal → Option ε) (filter : ReactionCollectEvent ε → Bool) :
    Nat → List RecvResult → List (ReactionCollectEvent ε) × Bool :=
  collectorTaskLoop max (reactionExtract emojiDecode filter)

/-! Helper lemmas about `open_session` and the reconnect loop. -/

lemma open_session_spec (g : Gateway) (resume : Bool) (r : AttemptResult) :
    (g.open_session resume r).1.session_id = g.session_id ∧
    (g.open_session resume r).1.sequence = g.sequence ∧
    (g.open_session resume r).1.resume_gateway_url = g.resume_gateway_url ∧
    (g.open_session resume r).1.reconnect_attempts = g.reconnect_attempts ∧
    (∀ sq, Action.sendHeartbeat sq ∉ (g.open_session resume r).2.1) ∧
    (∀ url, Action.connect url ∈ (g.open_session resume r).2.1 →
        url = g.resume_gateway_url.getD DEFAULT_GATEWAY_URL) ∧
    (∀ rz sid sq, Action.handshakeSent rz sid sq ∈ (g.open_session resume r).2.1 →
        rz = resume ∧ sid = g.session_id ∧ sq = g.sequence) := by
  cases r with
  | noHello => simp [Gateway.open_session]
  | hello iv ok => cases ok <;> simp [Gateway.open_session]

lemma reconnectLoop_spec (oracle : List (Nat × AttemptResult)) :
    ∀ (g : Gateway) (ur : Bool) (gf : Gateway) (acts : List Action),
      g.reconnectLoop ur oracle = some (gf, acts) →
      gf.session_id = g.session_id ∧ gf.sequence = g.sequence ∧
      gf.resume_gateway_url = g.resume_gateway_url ∧
      gf.reconnect_attempts = 0 ∧
      (∀ sq, Action.sendHeartbeat sq ∉ acts) ∧
      (∀ url, Action.connect url ∈ acts →
          url = g.resume_gateway_url.getD DEFAULT_GATEWAY_URL) ∧
      (∀ rz sid sq, Action.handshakeSent rz sid sq ∈ acts →
          sid = g.session_id ∧ sq = g.sequence ∧ (ur = false → rz = false)) := by
  induction oracle with
  | nil =>
      intro g ur gf acts h
      simp [Gateway.reconnectLoop] at h
  | cons jr rest ih =>
      obtain ⟨jitter, r⟩ := jr
      intro g ur gf acts h
      rcases hopen : g.open_session ur r with ⟨g1, acts1, ok⟩
      have hfields := open_session_spec g ur r
      rw [hopen] at hfields
      obtain ⟨hf1, hf2, hf3, hf4, hf5, hf6, hf7⟩ := hfields
      cases ok with
      | true =>
          rw [Gateway.reconnectLoop, hopen] at h
          dsimp only at h
          injection h with h'
          injection h' with hgf hacts
          subst hgf
          subst hacts
          refine ⟨hf1, hf2, hf3, rfl, ?_, ?_, ?_⟩
          · intro sq hmem
            rcases List.mem_append.mp hmem with hm | hm
            · split at hm <;> simp at hm
            · exact hf5 sq hm
          · intro url hmem
            rcases List.mem_append.mp hmem with hm | hm
            · split at hm <;> simp at hm
            · exact hf6 url hm
          · intro rz sid sq hmem
            rcases List.mem_append.mp hmem with hm | hm
            · split at hm <;> simp at hm
            · obtain ⟨hrz, hsid, hsq⟩ := hf7 rz sid sq hm
              exact ⟨hsid, hsq, fun hur => hrz.trans hur⟩
      | false =>
          rw [Gateway.reconnectLoop, hopen] at h
          dsimp only at h
          rcases hrec : Gateway.reconnectLoop
              { g1 with reconnect_attempts := g1.reconnect_attempts + 1 }
              (if ur then false else ur) rest with _ | ⟨gf', acts2⟩
          · rw [hrec] at h
            exact absurd h (by simp)
          · rw [hrec] at h
            injection h with h'
            injection h' with hgf hacts
            subst hgf
            subst hacts
            obtain ⟨ih1, ih2, ih3, ih4, ih5, ih6, ih7⟩ :=
              ih { g1 with reconnect_attempts := g1.reconnect_attempts + 1 }
                (if ur then false else ur) gf' acts2 hrec
            have huse : (if ur then false else ur) = false := by cases ur <;> rfl
            refine ⟨ih1.trans hf1, ih2.trans hf2, ih3.trans hf3, ih4, ?_, ?_, ?_⟩
            · intro sq hmem
              rcases List.mem_append.mp hmem with hm | hm
              · rcases List.mem_append.mp hm with hmm | hmm
                · split at hmm <;> simp at hmm
                · exact hf5 sq hmm
              · exact ih5 sq hm
            · intro url hmem
              rcases List.mem_append.mp hmem with hm | hm
              · rcases List.mem_append.mp hm with hmm | hmm
                · split at hmm <;> simp at hmm
                · exact hf6 url hmm
              · have := ih6 url hm
                rwa [show ({ g1 with reconnect_attempts := g1.reconnect_attempts + 1 } :
                    Gateway).resume_gateway_url = g.resume_gateway_url from hf3] at this
            · intro rz sid sq hmem
              rcases List.mem_append.mp hmem with hm | hm
              · rcases List.mem_append.mp hm with hmm | hmm
                · split at hmm <;> simp at hmm
                · obtain ⟨hrz, hsid, hsq⟩ := hf7 rz sid sq hmm
                  exact ⟨hsid, hsq, fun hur => hrz.trans hur⟩
              · obtain ⟨hsid, hsq, hrz⟩ := ih7 rz sid sq hm
                exact ⟨hsid.trans hf1, hsq.trans hf2, fun _ => hrz huse⟩

lemma reconnect_spec (g : Gateway) (pr : Bool) (oracle : List (Nat × AttemptResult))
    (gf : Gateway) (acts : List Action)
    (h : g.reconnect pr oracle = some (gf, acts)) :
    gf.session_id = g.session_id ∧ gf.sequence = g.sequence ∧
    gf.resume_gateway_url = g.resume_gateway_url ∧
    gf.reconnect_attempts = 0 ∧
    (∀ sq, Action.sendHeartbeat sq ∉ acts) ∧
    (∀ url, Action.connect url ∈ acts →
        url = g.resume_gateway_url.getD DEFAULT_GATEWAY_URL) ∧
    (∀ rz sid sq, Action.handshakeSent rz sid sq ∈ acts →
        sid = g.session_id ∧ sq = g.sequence ∧
        ((pr && g.can_resume) = false → rz = false)) := by
  simp only [Gateway.reconnect] at h
  have hspec := reconnectLoop_spec oracle _ _ gf acts h
  exact hspec

/-! Helper lemmas about the collector task loops. -/

lemma collectorTaskLoop_length_le {τ : Type} (N : Nat)
    (extract : DispatchEvent → Option τ) :
    ∀ (inputs : List RecvResult) (c : Nat),
      (collectorTaskLoop (some N) extract c inputs).1.length ≤ N - c := by
  intro inputs
  induction inputs with
  | nil => intro c; simp [collectorTaskLoop]
  | cons r rest ih =>
      intro c
      rw [collectorTaskLoop.eq_def]
      dsimp only
      by_cases hmax : maxReached (some N) c = true
      · rw [if_pos hmax]
        simp
      · rw [if_neg hmax]
        have hc : c < N := by
          simp [maxReached, decide_eq_true_eq] at hmax
          omega
        cases r with
        | lagged n => exact ih c
        | closed => simp
        | timedOut => simp
        | item e =>
            dsimp only
            cases hx : extract e with
            | none => exact ih c
            | some v =>
                dsimp only
                have hrec := ih (c + 1)
                simp only [List.length_cons]
                omega

lemma collectorTaskLoop_closed {τ : Type} (N : Nat)
    (extract : DispatchEvent → Option τ) :
    ∀ (inputs : List RecvResult) (c : Nat),
      (collectorTaskLoop (some N) extract c inputs).1.length = N - c →
      (collectorTaskLoop (some N) extract c inputs).2 = true := by
  intro inputs
  induction inputs with
  | nil =>
      intro c h
      simp [collectorTaskLoop] at h ⊢
      simp [maxReached, decide_eq_true_eq]
      omega
  | cons r rest ih =>
      intro c h
      rw [collectorTaskLoop.eq_def] at h ⊢
      dsimp only at h ⊢
      by_cases hmax : maxReached (some N) c = true
      · rw [if_pos hmax]
      · rw [if_neg hmax] at h ⊢
        have hc : c < N := by
          simp [maxReached, decide_eq_true_eq] at hmax
          omega
        cases r with
        | lagged n => exact ih c h
        | closed => rfl
        | timedOut => rfl
        | item e =>
            dsimp only at h ⊢
            cases hx : extract e with
            | none =>
                rw [hx] at h
                exact ih c h
            | some v =>
                rw [hx] at h
                dsimp only at h ⊢
                apply ih (c + 1)
                simp only [List.length_cons] at h
                omega

lemma collectorTaskLoop_lagged {τ : Type} (max : Option Nat)
    (extract : DispatchEvent → Option τ) (c n : Nat) (rest : List RecvResult) :
    collectorTaskLoop max extract c (RecvResult.lagged n :: rest) =
      collectorTaskLoop max extract c rest := by
  rw [collectorTaskLoop.eq_def]
  dsimp only
  by_cases hmax : maxReached max c = true
  · rw [if_pos hmax]
    cases rest with
    | nil =>
        rw [collectorTaskLoop.eq_def]
        dsimp only
        rw [hmax]
    | cons r rs =>
        rw [collectorTaskLoop.eq_def]
        dsimp only
        rw [if_pos hmax]
  · rw [if_neg hmax]

lemma collectorTaskLoop_extract_none {τ : Type} (max : Option Nat)
    (extract : DispatchEvent → Option τ) :
    ∀ (inputs : List RecvResult) (c : Nat),
      (∀ e, RecvResult.item e ∈ inputs → extract e = none) →
      (collectorTaskLoop max extract c inputs).1 = [] := by
  intro inputs
  induction inputs with
  | nil => intro c _; simp [collectorTaskLoop]
  | cons r rest ih =>
      intro c hnone
      rw [collectorTaskLoop.eq_def]
      dsimp only
      by_cases hmax : maxReached max c = true
      · rw [if_pos hmax]
      · rw [if_neg hmax]
        cases r with
        | lagged n => exact ih c (fun e he => hnone e (List.mem_cons_of_mem _ he))
        | closed => rfl
        | timedOut => rfl
        | item e =>
            dsimp only
            rw [hnone e (List.mem_cons_self _ _)]
            exact ih c (fun q hq => hnone q (List.mem_cons_of_mem _ hq))

lemma from_dispatch_none_of_kind {ε : Type} (emojiDecode : JVal → Option ε)
    (e : DispatchEvent) (h1 : e.kind ≠ DispatchEventType.messageReactionAdd)
    (h2 : e.kind ≠ DispatchEventType.messageReactionRemove) :
    ReactionCollectEvent.from_dispatch emojiDecode e = none := by
  cases hk : e.kind <;> simp_all [ReactionCollectEvent.from_dispatch]

/-! Helper lemmas for dispatch-sequence tracking. -/

lemma handle_op0 (g : Gateway) (p : JVal) (oracle : List (Nat × AttemptResult))
    (h : (p.get "op").bind JVal.as_u64 = some 0) :
    ∃ g1, g.handle_control_opcode p oracle = some (g1, [], some p) ∧
      g1.sequence = g.sequence := by
  unfold Gateway.handle_control_opcode
  rw [h]
  dsimp only
  split
  · exact ⟨_, rfl, rfl⟩
  · exact ⟨_, rfl, rfl⟩

lemma processPayloads_seq (ps : List JVal) :
    ∀ (ss : List Nat) (g : Gateway),
      (∀ p ∈ ps, (p.get "op").bind JVal.as_u64 = some 0) →
      ps.map (fun p => (p.get "s").bind JVal.as_u64) = ss.map some →
      ∃ g', g.processPayloads ps = some g' ∧
        g'.sequence = ss.foldl (fun _ x => some x) g.sequence := by
  induction ps with
  | nil =>
      intro ss g _ hmap
      have hss : ss = [] := by cases ss <;> simp_all
      subst hss
      exact ⟨g, rfl, rfl⟩
  | cons p ps ih =>
      intro ss g hops hmap
      cases ss with
      | nil => simp at hmap
      | cons s ss' =>
          simp only [List.map_cons, List.cons.injEq] at hmap
          obtain ⟨hs, hmap'⟩ := hmap
          have hseq1 : (g.applySeqUpdate p).sequence = some s := by
            unfold Gateway.applySeqUpdate
            rw [hs]
          obtain ⟨g1, hh, hg1⟩ :=
            handle_op0 (g.applySeqUpdate p) p [] (hops p (List.mem_cons_self _ _))
          obtain ⟨g', hrun, hseq'⟩ := ih ss' g1
            (fun q hq => hops q (List.mem_cons_of_mem _ hq)) hmap'
          refine ⟨g', ?_, ?_⟩
          · rw [Gateway.processPayloads]
            rw [show g.receiveStep p [] = some (g1, [], some p) from hh]
            exact hrun
          · rw [hseq', hg1, hseq1]
            simp only [List.foldl_cons]

lemma foldl_overwrite (ss : List Nat) :
    ∀ init : Option Nat, ss ≠ [] →
      ss.foldl (fun _ x => some x) init = ss.getLast? := by
  induction ss with
  | nil => intro _ h; exact absurd rfl h
  | cons a t ih =>
      intro init _
      cases t with
      | nil => simp
      | cons b t' =>
          rw [show (a :: b :: t').foldl (fun _ x => some x) init =
                (b :: t').foldl (fun _ x => some x) (some a) from rfl]
          rw [ih (some a) (by simp), List.getLast?_cons_cons]

lemma chainLt_le_getLast (ss : List Nat) :
    ss.Chain' (· < ·) →
    ∀ m, ss.getLast? = some m → ∀ x ∈ ss, x ≤ m := by
  induction ss with
  | nil => intro _ m hm; simp at hm
  | cons a t ih =>
      intro hchain m hm x hx
      cases t with
      | nil =>
          simp at hm hx
          omega
      | cons b t' =>
          rw [List.getLast?_cons_cons] at hm
          have hab : a < b := (List.chain'_cons.mp hchain).1
          have hchain' : (b :: t').Chain' (· < ·) := (List.chain'_cons.mp hchain).2
          rcases List.mem_cons.mp hx with rfl | hx'
          · have hb : b ≤ m := ih hchain' m hm b (List.mem_cons_self _ _)
            omega
          · exact ih hchain' m hm x hx'

lemma mem_of_getLast_eq (ss : List Nat) (m : Nat) (h : ss.getLast? = some m) :
    m ∈ ss := by
  induction ss with
  | nil => simp at h
  | cons a t ih =>
      cases t with
      | nil =>
          simp at h
          simp [h]
      | cons b t' =>
          rw [List.getLast?_cons_cons] at h
          exact List.mem_cons_of_mem _ (ih h)

/-! Claim theorems. -/

/-- C5: a collector created with `CollectorOptions.max = Some(N)` delivers
at most N items to its output queue, and as soon as N items have been
delivered its task loop terminates (closing the output, so `next()` yields
`None`), no matter how many further receive outcomes follow; this holds for
both the message and the reaction collector. -/
theorem collector_max_items_bound {μ ε : Type} (N : Nat)
    (decode : JVal → Option μ) (filt : μ → Bool)
    (emojiDecode : JVal → Option ε) (rfilt : ReactionCollectEvent ε → Bool)
    (inputs : List RecvResult) :
    (messageCollectorLoop (some N) decode filt 0 inputs).1.length ≤ N ∧
    ((messageCollectorLoop (some N) decode filt 0 inputs).1.length = N →
      (messageCollectorLoop (some N) decode filt 0 inputs).2 = true) ∧
    (reactionCollectorLoop (some N) emojiDecode rfilt 0 inputs).1.length ≤ N ∧
    ((reactionCollectorLoop (some N) emojiDecode rfilt 0 inputs).1.length = N →
      (reactionCollectorLoop (some N) emojiDecode rfilt 0 inputs).2 = true) := by
  refine ⟨?_, ?_, ?_, ?_⟩
  · have h := collectorTaskLoop_length_le N (messageExtract decode filt) inputs 0
    simpa [messageCollectorLoop] using h
  · intro h
    exact collectorTaskLoop_closed N (messageExtract decode filt) inputs 0
      (by simpa [messageCollectorLoop] using h)
  · have h := collectorTaskLoop_length_le N (reactionExtract emojiDecode rfilt) inputs 0
    simpa [reactionCollectorLoop] using h
  · intro h
    exact collectorTaskLoop_closed N (reactionExtract emojiDecode rfilt) inputs 0
      (by simpa [reactionCollectorLoop] using h)

/-- Witness for C5 at a concrete run: bound 1, two matching MessageCreate
events broadcast (and two reaction-adds on the reaction side). -/
theorem collector_max_items_bound_witness :
    (messageCollectorLoop (some 1) (fun _ => some 0) (fun _ => true) 0
        [RecvResult.item ⟨DispatchEventType.messageCreate, some 1, JVal.null⟩,
         RecvResult.item ⟨DispatchEventType.messageCreate, some 2, JVal.null⟩]).1.length ≤ 1 ∧
    ((messageCollectorLoop (some 1) (fun _ => some 0) (fun _ => true) 0
        [RecvResult.item ⟨DispatchEventType.messageCreate, some 1, JVal.null⟩,
         RecvResult.item ⟨DispatchEventType.messageCreate, some 2, JVal.null⟩]).1.length = 1 →
      (messageCollectorLoop (some 1) (fun _ => some 0) (fun _ => true) 0
        [RecvResult.item ⟨DispatchEventType.messageCreate, some 1, JVal.null⟩,
         RecvResult.item ⟨DispatchEventType.messageCreate, some 2, JVal.null⟩]).2 = true) ∧
    (reactionCollectorLoop (some 1) (fun _ => some (0 : Nat)) (fun _ => true) 0
        [RecvResult.item ⟨DispatchEventType.messageReactionAdd, some 1, JVal.null⟩,
         RecvResult.item ⟨DispatchEventType.messageReactionAdd, some 2, JVal.null⟩]).1.length ≤ 1 ∧
    ((reactionCollectorLoop (some 1) (fun _ => some (0 : Nat)) (fun _ => true) 0
        [RecvResult.item ⟨DispatchEventType.messageReactionAdd, some 1, JVal.null⟩,
         RecvResult.item ⟨DispatchEventType.messageReactionAdd, some 2, JVal.null⟩]).1.length = 1 →
      (reactionCollectorLoop (some 1) (fun _ => some (0 : Nat)) (fun _ => true) 0
        [RecvResult.item ⟨DispatchEventType.messageReactionAdd, some 1, JVal.null⟩,
         RecvResult.item ⟨DispatchEventType.messageReactionAdd, some 2, JVal.null⟩]).2 = true) :=
  collector_max_items_bound 1 (fun _ => some 0) (fun _ => true) (fun _ => some 0)
    (fun _ => true)
    [RecvResult.item ⟨DispatchEventType.messageCreate, some 1, JVal.null⟩,
     RecvResult.item ⟨DispatchEventType.messageCreate, some 2, JVal.null⟩]

/-- C6: the reaction collector discriminates on the event kind before the
caller's filter is consulted: `from_dispatch` yields `None` for any kind
other than reaction add/remove, so a run whose items are all MessageCreate
delivers nothing even with an always-true filter; dually, the message
collector delivers nothing from a run containing no MessageCreate items. -/
theorem reaction_collector_kind_discrimination {μ ε : Type} (max : Option Nat)
    (decode : JVal → Option μ) (filt : μ → Bool)
    (emojiDecode : JVal → Option ε) (inputs : List RecvResult) (c : Nat) :
    (∀ e : DispatchEvent, e.kind ≠ DispatchEventType.messageReactionAdd →
        e.kind ≠ DispatchEventType.messageReactionRemove →
        ReactionCollectEvent.from_dispatch emojiDecode e = none) ∧
    ((∀ e, RecvResult.item e ∈ inputs → e.kind = DispatchEventType.messageCreate) →
        (reactionCollectorLoop max emojiDecode (fun _ => true) c inputs).1 = []) ∧
    ((∀ e, RecvResult.item e ∈ inputs → e.kind ≠ DispatchEventType.messageCreate) →
        (messageCollectorLoop max decode filt c inputs).1 = []) := by
  refine ⟨fun e h1 h2 => from_dispatch_none_of_kind emojiDecode e h1 h2, ?_, ?_⟩
  · intro hmc
    apply collectorTaskLoop_extract_none
    intro e he
    have hk := hmc e he
    unfold reactionExtract
    rw [from_dispatch_none_of_kind emojiDecode e (by simp [hk]) (by simp [hk])]
  · intro hnmc
    apply collectorTaskLoop_extract_none
    intro e he
    unfold messageExtract
    rw [if_pos (hnmc e he)]

/-- Witness for C6 at a concrete run: one MessageCreate broadcast, a
reaction collector with an always-true filter, nothing delivered. -/
theorem reaction_collector_kind_discrimination_witness :
    (reactionCollectorLoop (some 5) (fun _ => some (0 : Nat)) (fun _ => true) 0
        [RecvResult.item ⟨DispatchEventType.messageCreate, some 1, JVal.null⟩]).1 =
      ([] : List (ReactionCollectEvent Nat)) := by
  have h := @reaction_collector_kind_discrimination Nat Nat (some 5)
      (fun _ => some 0) (fun _ => true) (fun _ => some 0)
      [RecvResult.item ⟨DispatchEventType.messageCreate, some 1, JVal.null⟩] 0
  refine h.2.1 ?_
  intro e he
  simp only [List.mem_singleton] at he
  injection he with he'
  rw [he']

/-- C9: a lag notification from the broadcast receiver is skipped: the
collector task continues with the remaining receive outcomes, delivering
the same items and with the same termination status as if the lag had not
occurred — so a lag never closes the output, never counts as a delivery,
and is never surfaced to the subscriber. -/
theorem collector_lag_skips_and_continues {μ ε : Type} (max : Option Nat)
    (decode : JVal → Option μ) (filt : μ → Bool)
    (emojiDecode : JVal → Option ε) (rfilt : ReactionCollectEvent ε → Bool)
    (c n : Nat) (rest : List RecvResult) :
    messageCollectorLoop max decode filt c (RecvResult.lagged n :: rest) =
      messageCollectorLoop max decode filt c rest ∧
    reactionCollectorLoop max emojiDecode rfilt c (RecvResult.lagged n :: rest) =
      reactionCollectorLoop max emojiDecode rfilt c rest :=
  ⟨collectorTaskLoop_lagged _ _ _ _ _, collectorTaskLoop_lagged _ _ _ _ _⟩

lemma getLast?_isSome_of_ne_nil (ss : List Nat) (h : ss ≠ []) :
    ss.getLast?.isSome := by
  induction ss with
  | nil => exact absurd rfl h
  | cons a t ih =>
      cases t with
      | nil => simp
      | cons b t' =>
          rw [List.getLast?_cons_cons]
          exact ih (by simp)

/-- C2: in a Steady-state step where the heartbeat timer ticks while the
previous heartbeat is still unacknowledged, the tick arm invokes
`reconnect(true)` (preferring resume) instead of marking another heartbeat
pending, and no heartbeat payload is sent anywhere in that step: the tick
arm never reaches its `pending_heartbeat := true` assignment, and the
reconnect it performs emits no heartbeat send. -/
theorem heartbeat_timeout_tick_reconnects (g : Gateway)
    (oracle : List (Nat × AttemptResult)) (h : g.awaiting_heartbeat_ack = true) :
    g.tickStep oracle = g.reconnect true oracle ∧
    ∀ gf acts, g.tickStep oracle = some (gf, acts) →
      ∀ sq, Action.sendHeartbeat sq ∉ acts := by
  have hts : g.tickStep oracle = g.reconnect true oracle := by
    unfold Gateway.tickStep
    rw [if_pos h]
  refine ⟨hts, ?_⟩
  intro gf acts hstep sq
  rw [hts] at hstep
  exact (reconnect_spec g true oracle gf acts hstep).2.2.2.2.1 sq

/-- Witness for C2 at a concrete gateway in ack-timeout state. -/
theorem heartbeat_timeout_tick_reconnects_witness :
    ({ Gateway.init "tok" with awaiting_heartbeat_ack := true } : Gateway).tickStep
        [(0, AttemptResult.hello 41250 true)] =
      ({ Gateway.init "tok" with awaiting_heartbeat_ack := true } : Gateway).reconnect true
        [(0, AttemptResult.hello 41250 true)] ∧
    ∀ sq, Action.sendHeartbeat sq ∉
      [Action.connect DEFAULT_GATEWAY_URL, Action.handshakeSent false none none] :=
  ⟨(heartbeat_timeout_tick_reconnects
      { Gateway.init "tok" with awaiting_heartbeat_ack := true }
      [(0, AttemptResult.hello 41250 true)] rfl).1,
   fun sq => (heartbeat_timeout_tick_reconnects
      { Gateway.init "tok" with awaiting_heartbeat_ack := true }
      [(0, AttemptResult.hello 41250 true)] rfl).2 _ _ rfl sq⟩

/-- C10: the sequence-update stage of `next_event` runs for every inbound
payload before the opcode switch (`receiveStep` is the opcode handler
composed after `applySeqUpdate`); it sets the tracked sequence from `s`
whenever `s` is a non-null unsigned integer — regardless of the payload's
opcode — leaves it unchanged when `s` is absent, null, or not an unsigned
integer, and touches no other field. -/
theorem seq_update_any_opcode (g : Gateway) (p : JVal) :
    ((g.applySeqUpdate p).sequence =
      match (p.get "s").bind JVal.as_u64 with
      | some n => some n
      | none => g.sequence) ∧
    (g.applySeqUpdate p).session_id = g.session_id ∧
    (g.applySeqUpdate p).resume_gateway_url = g.resume_gateway_url ∧
    (g.applySeqUpdate p).awaiting_heartbeat_ack = g.awaiting_heartbeat_ack ∧
    (g.applySeqUpdate p).pending_heartbeat = g.pending_heartbeat ∧
    ∀ oracle, g.receiveStep p oracle =
      (g.applySeqUpdate p).handle_control_opcode p oracle := by
  rcases h : (p.get "s").bind JVal.as_u64 with _ | n <;>
    simp [Gateway.applySeqUpdate, Gateway.receiveStep, h]

/-- C4: over any Steady-state run of dispatch (opcode-0) frames whose `s`
fields are strictly increasing, the tracked sequence after processing the
run equals the maximum sequence number seen in it. -/
theorem dispatch_seq_tracks_max (g : Gateway) (ps : List JVal) (ss : List Nat)
    (hops : ∀ p ∈ ps, (p.get "op").bind JVal.as_u64 = some 0)
    (hmap : ps.map (fun p => (p.get "s").bind JVal.as_u64) = ss.map some)
    (hchain : ss.Chain' (· < ·)) (hne : ss ≠ []) :
    ∃ g' m, g.processPayloads ps = some g' ∧ g'.sequence = some m ∧
      m ∈ ss ∧ ∀ x ∈ ss, x ≤ m := by
  obtain ⟨g', hrun, hseq⟩ := processPayloads_seq ps ss g hops hmap
  rw [foldl_overwrite ss g.sequence hne] at hseq
  rcases hlast : ss.getLast? with _ | m
  · have hsome := getLast?_isSome_of_ne_nil ss hne
    rw [hlast] at hsome
    simp at hsome
  · rw [hlast] at hseq
    exact ⟨g', m, hrun, hseq, mem_of_getLast_eq ss m hlast,
      chainLt_le_getLast ss hchain m hlast⟩

/-- Witness for C4 at a concrete run of two dispatch frames with `s` values
3 then 7. -/
theorem dispatch_seq_tracks_max_witness :
    ∃ g' m, (Gateway.init "tok").processPayloads
        [JVal.obj [("op", JVal.num 0), ("s", JVal.num 3)],
         JVal.obj [("op", JVal.num 0), ("s", JVal.num 7)]] = some g' ∧
      g'.sequence = some m ∧ m ∈ [3, 7] ∧ ∀ x ∈ [3, 7], x ≤ m := by
  refine dispatch_seq_tracks_max (Gateway.init "tok") _ [3, 7] ?_ rfl ?_ ?_
  · intro p hp
    simp only [List.mem_cons, List.not_mem_nil, or_false] at hp
    rcases hp with rfl | rfl <;> rfl
  · exact List.chain'_pair.mpr (by norm_num)
  · decide

lemma handle_op9_nonresumable (g : Gateway) (p : JVal)
    (oracle : List (Nat × AttemptResult)) (gf : Gateway) (acts : List Action)
    (ev : Option JVal)
    (hop : (p.get "op").bind JVal.as_u64 = some 9)
    (hd : ((p.index "d").as_bool).getD false = false)
    (h : g.handle_control_opcode p oracle = some (gf, acts, ev)) :
    ∃ acts2, acts = Action.sleep INVALID_SESSION_RETRY_DELAY_MS :: acts2 ∧
      ev = none ∧
      ({ g with session_id := none, sequence := none } : Gateway).reconnect
          false oracle = some (gf, acts2) := by
  unfold Gateway.handle_control_opcode at h
  rw [hop] at h
  dsimp only at h
  rw [hd] at h
  rw [if_neg Bool.false_ne_true] at h
  rcases hrec : ({ g with session_id := none, sequence := none } : Gateway).reconnect
      false oracle with _ | ⟨g2, acts2⟩
  · rw [hrec] at h
    simp at h
  · rw [hrec] at h
    dsimp only at h
    injection h with h'
    injection h' with hgf h''
    injection h'' with hacts hev
    refine ⟨acts2, hacts.symm, hev.symm, ?_⟩
    rw [← hgf]

/-- C1 (amended): after a non-resumable invalid session (opcode 9 with a
false `d`), `session_id` and `sequence` are cleared before the reconnect
begins, so every handshake payload sent during that reconnect is a fresh
identify (never a resume), built while both fields are `None`, and both
fields are still `None` when the reconnect returns. The original claim's
generalization to every non-resumed reconnect fails: the degrade path from
a failed resume to a fresh identify does not clear the fields (see the
counterexample). -/
theorem invalid_session_nonresumable_fresh_identify (g : Gateway) (p : JVal)
    (oracle : List (Nat × AttemptResult)) (gf : Gateway) (acts : List Action)
    (ev : Option JVal)
    (hop : (p.get "op").bind JVal.as_u64 = some 9)
    (hd : ((p.index "d").as_bool).getD false = false)
    (h : g.handle_control_opcode p oracle = some (gf, acts, ev)) :
    gf.session_id = none ∧ gf.sequence = none ∧
    ∀ rz sid sq, Action.handshakeSent rz sid sq ∈ acts →
      rz = false ∧ sid = none ∧ sq = none := by
  obtain ⟨acts2, hacts, -, hrec⟩ := handle_op9_nonresumable g p oracle gf acts ev hop hd h
  obtain ⟨hs1, hs2, -, -, -, -, hhs⟩ :=
    reconnect_spec { g with session_id := none, sequence := none } false oracle gf acts2 hrec
  refine ⟨hs1, hs2, ?_⟩
  intro rz sid sq hmem
  rw [hacts] at hmem
  rcases List.mem_cons.mp hmem with heq | hmem2
  · cases heq
  · obtain ⟨hsid, hsq, hrz⟩ := hhs rz sid sq hmem2
    exact ⟨hrz rfl, hsid, hsq⟩

/-- Witness for C1's amended theorem: a resumable-looking session receives
`{op:9, d:false}`; the single reconnect attempt succeeds and its handshake
is an identify carrying no session state. -/
theorem invalid_session_nonresumable_fresh_identify_witness :
    ({ Gateway.init "tok" with session_id := some "s1", sequence := some 9 } :
        Gateway).handle_control_opcode
        (JVal.obj [("op", JVal.num 9), ("d", JVal.bool false)])
        [(0, AttemptResult.hello 41250 true)] =
      some ({ token := "tok", hasConnection := true, hasHeartbeat := true,
              heartbeat_interval_ms := 41250, awaiting_heartbeat_ack := false,
              pending_heartbeat := true, sequence := none, session_id := none,
              resume_gateway_url := none, reconnect_attempts := 0 },
            [Action.sleep 1000, Action.connect DEFAULT_GATEWAY_URL,
             Action.handshakeSent false none none], none) ∧
    ∀ rz sid sq, Action.handshakeSent rz sid sq ∈
        [Action.sleep 1000, Action.connect DEFAULT_GATEWAY_URL,
         Action.handshakeSent false none none] →
      rz = false ∧ sid = none ∧ sq = none :=
  ⟨rfl,
   (invalid_session_nonresumable_fresh_identify
      { Gateway.init "tok" with session_id := some "s1", sequence := some 9 }
      (JVal.obj [("op", JVal.num 9), ("d", JVal.bool false)])
      [(0, AttemptResult.hello 41250 true)] _ _ _ rfl rfl rfl).2.2⟩

/-- C1 counterexample: a reconnect that degrades from resume to fresh
identify after a failed resume attempt sends the identify while
`session_id` and `sequence` still hold their old values — they are not
cleared, contradicting the claim for general non-resumed reconnects. -/
theorem resume_degrade_counterexample :
    (({ Gateway.init "tok" with
        session_id := some "sid", sequence := some 5,
        resume_gateway_url := some "wss://r" } : Gateway).reconnect true
        [(0, AttemptResult.noHello), (7, AttemptResult.hello 41250 true)]).map
      (fun res => (res.1.session_id, res.1.sequence,
        decide (Action.handshakeSent false (some "sid") (some 5) ∈ res.2))) =
      some (some "sid", some 5, true) := rfl

/-- C8 (amended): the non-resumable invalidation clears only `session_id`
and `sequence`: the state handed to the subsequent reconnect agrees with
the old state on every other field, `resume_gateway_url` survives into the
final state, and the subsequent fresh-identify connect reads the retained
(stale) `resume_gateway_url` as its endpoint. -/
theorem invalid_session_clears_only_session_and_seq (g : Gateway) (p : JVal)
    (oracle : List (Nat × AttemptResult)) (gf : Gateway) (acts : List Action)
    (ev : Option JVal)
    (hop : (p.get "op").bind JVal.as_u64 = some 9)
    (hd : ((p.index "d").as_bool).getD false = false)
    (h : g.handle_control_opcode p oracle = some (gf, acts, ev)) :
    (∃ acts2, acts = Action.sleep INVALID_SESSION_RETRY_DELAY_MS :: acts2 ∧
      ({ g with session_id := none, sequence := none } : Gateway).reconnect
          false oracle = some (gf, acts2)) ∧
    gf.session_id = none ∧ gf.sequence = none ∧
    gf.resume_gateway_url = g.resume_gateway_url ∧
    ∀ url, Action.connect url ∈ acts →
      url = g.resume_gateway_url.getD DEFAULT_GATEWAY_URL := by
  obtain ⟨acts2, hacts, hev, hrec⟩ := handle_op9_nonresumable g p oracle gf acts ev hop hd h
  obtain ⟨hs1, hs2, hs3, -, -, hurl, -⟩ :=
    reconnect_spec { g with session_id := none, sequence := none } false oracle gf acts2 hrec
  refine ⟨⟨acts2, hacts, hrec⟩, hs1, hs2, hs3, ?_⟩
  intro url hmem
  rw [hacts] at hmem
  rcases List.mem_cons.mp hmem with heq | hmem2
  · cases heq
  · exact hurl url hmem2

/-- Witness for C8's amended theorem: concrete invalidation with a retained
resume URL which the subsequent connect then uses. -/
theorem invalid_session_clears_only_session_and_seq_witness :
    ({ Gateway.init "tok" with
        session_id := some "sid", sequence := some 5,
        resume_gateway_url := some "wss://resume.example",
        heartbeat_interval_ms := 41250 } : Gateway).handle_control_opcode
        (JVal.obj [("op", JVal.num 9), ("d", JVal.bool false)])
        [(3, AttemptResult.hello 42500 true)] =
      some ({ token := "tok", hasConnection := true, hasHeartbeat := true,
              heartbeat_interval_ms := 42500, awaiting_heartbeat_ack := false,
              pending_heartbeat := true, sequence := none, session_id := none,
              resume_gateway_url := some "wss://resume.example",
              reconnect_attempts := 0 },
            [Action.sleep 1000, Action.connect "wss://resume.example",
             Action.handshakeSent false none none], none) ∧
    ∀ url, Action.connect url ∈
        [Action.sleep 1000, Action.connect "wss://resume.example",
         Action.handshakeSent false none none] →
      url = (some "wss://resume.example").getD DEFAULT_GATEWAY_URL :=
  ⟨rfl,
   (invalid_session_clears_only_session_and_seq
      { Gateway.init "tok" with
        session_id := some "sid", sequence := some 5,
        resume_gateway_url := some "wss://resume.example",
        heartbeat_interval_ms := 41250 }
      (JVal.obj [("op", JVal.num 9), ("d", JVal.bool false)])
      [(3, AttemptResult.hello 42500 true)] _ _ _ rfl rfl rfl).2.2.2.2⟩

/-- C8 counterexample: after `{op:9, d:false}`, `resume_gateway_url` is not
cleared, and the subsequent connect reads the stale resume URL; the
negotiated `heartbeat_interval_ms` is also carried over rather than
cleared — so not every Session attribute is destroyed. -/
theorem invalid_session_retains_resume_url_counterexample :
    (({ Gateway.init "tok" with
        session_id := some "sid", sequence := some 5,
        resume_gateway_url := some "wss://resume.example",
        heartbeat_interval_ms := 41250 } : Gateway).handle_control_opcode
        (JVal.obj [("op", JVal.num 9), ("d", JVal.bool false)])
        [(3, AttemptResult.hello 42500 true)]).map
      (fun res => (res.1.resume_gateway_url, res.1.heartbeat_interval_ms,
        decide (Action.connect "wss://resume.example" ∈ res.2.1))) =
      some (some "wss://resume.example", 42500, true) := rfl

/-- C3 (amended): the pre-jitter backoff base `min(2^min(attempt,6) s, 60 s)`
is monotone in the attempt number and capped at 60 s; the waited delay adds
up to 20% jitter on top of the capped base, so it is bounded by 72 s rather
than 60 s, and it strictly increases from one failed attempt to the next
only while the next attempt is below the cap (from the cap onward the
jitter can make it decrease); the attempt counter is reset to zero by the
first successful handshake. -/
theorem backoff_base_monotone_capped_and_reset :
    (∀ a, backoffBaseMs a ≤ 60000) ∧
    (∀ a b, a ≤ b → backoffBaseMs a ≤ backoffBaseMs b) ∧
    (∀ a j, j ≤ maxJitterMs a → backoff_with_jitter a j ≤ 72000) ∧
    (∀ a j j2, a + 1 ≤ 6 → j ≤ maxJitterMs a →
        backoff_with_jitter a j < backoff_with_jitter (a + 1) j2) ∧
    (∀ (g : Gateway) (pr : Bool) (oracle : List (Nat × AttemptResult))
        (gf : Gateway) (acts : List Action),
        g.reconnect pr oracle = some (gf, acts) → gf.reconnect_attempts = 0) := by
  refine ⟨?_, ?_, ?_, ?_, ?_⟩
  · intro a
    exact min_le_right _ _
  · intro a b hab
    unfold backoffBaseMs
    exact min_le_min
      (Nat.mul_le_mul
        (Nat.pow_le_pow_right (by norm_num) (min_le_min hab (le_refl 6)))
        (le_refl 1000))
      (le_refl _)
  · intro a j hj
    have h1 : backoffBaseMs a ≤ 60000 := min_le_right _ _
    unfold backoff_with_jitter
    unfold maxJitterMs at hj
    omega
  · intro a j j2 ha hj
    have hmin1 : min a 6 = a := by omega
    have hmin2 : min (a + 1) 6 = a + 1 := by omega
    have hpow : 2 ^ a ≤ 32 := by
      calc 2 ^ a ≤ 2 ^ 5 := Nat.pow_le_pow_right (by norm_num) (by omega)
        _ = 32 := by norm_num
    have hpos : 1 ≤ 2 ^ a := Nat.one_le_two_pow
    have hsucc : 2 ^ (a + 1) = 2 * 2 ^ a := by
      rw [pow_succ]
      ring
    unfold backoff_with_jitter backoffBaseMs MAX_RECONNECT_BACKOFF_MS
    unfold maxJitterMs backoffBaseMs MAX_RECONNECT_BACKOFF_MS at hj
    rw [hmin1] at hj ⊢
    rw [hmin2, hsucc]
    omega
  · intro g pr oracle gf acts h
    exact (reconnect_spec g pr oracle gf acts h).2.2.2.1

/-- Witness for C3's amended theorem at concrete attempts, jitters, and a
concrete successful reconnect. -/
theorem backoff_base_monotone_capped_and_reset_witness :
    backoffBaseMs 7 ≤ 60000 ∧
    backoffBaseMs 2 ≤ backoffBaseMs 5 ∧
    backoff_with_jitter 6 12000 ≤ 72000 ∧
    backoff_with_jitter 2 800 < backoff_with_jitter 3 0 ∧
    ({ token := "tok", hasConnection := true, hasHeartbeat := true,
       heartbeat_interval_ms := 1, awaiting_heartbeat_ack := false,
       pending_heartbeat := true, sequence := none, session_id := none,
       resume_gateway_url := none, reconnect_attempts := 0 } :
       Gateway).reconnect_attempts = 0 :=
  ⟨backoff_base_monotone_capped_and_reset.1 7,
   backoff_base_monotone_capped_and_reset.2.1 2 5 (by omega),
   backoff_base_monotone_capped_and_reset.2.2.1 6 12000 (by decide),
   backoff_base_monotone_capped_and_reset.2.2.2.1 2 800 0 (by omega) (by decide),
   backoff_base_monotone_capped_and_reset.2.2.2.2 (Gateway.init "tok") false
     [(0, AttemptResult.hello 1 true)] _ _ rfl⟩

/-- C3 counterexample: with the attempt counter at 6, a maximal legal
jitter draw makes the gateway wait 72 s before the attempt — beyond the
claimed 60 s cap — and the following attempt waits only 60 s, so the waited
delays are not monotonically non-decreasing. -/
theorem backoff_counterexample :
    12000 ≤ maxJitterMs 6 ∧ 0 ≤ maxJitterMs 7 ∧
    (({ Gateway.init "tok" with reconnect_attempts := 6 } : Gateway).reconnect false
        [(12000, AttemptResult.noHello), (0, AttemptResult.hello 41250 true)]).map
      (fun res => res.2) =
      some [Action.sleep 72000, Action.connect DEFAULT_GATEWAY_URL,
            Action.sleep 60000, Action.connect DEFAULT_GATEWAY_URL,
            Action.handshakeSent false none none] ∧
    60000 < 72000 :=
  ⟨by decide, by decide, rfl, by decide⟩

/-- C7 (amended): the gateway's first heartbeat after a connect is not
jitter-delayed: a successful `open_session` leaves `pending_heartbeat` set,
and the very first `next_event` loop top then emits the heartbeat
(carrying the current sequence) before waiting on the timer or the socket;
the session-opening trace contains no sleep. -/
theorem first_heartbeat_sent_immediately (g : Gateway) (resume : Bool) (iv : Nat) :
    (g.open_session resume (AttemptResult.hello iv true)).1.pending_heartbeat = true ∧
    (g.open_session resume (AttemptResult.hello iv true)).1.loopTop.2 =
      [Action.sendHeartbeat g.sequence] ∧
    (g.open_session resume (AttemptResult.hello iv true)).1.loopTop.1.awaiting_heartbeat_ack
        = true ∧
    ∀ ms, Action.sleep ms ∉ (g.open_session resume (AttemptResult.hello iv true)).2.1 := by
  refine ⟨rfl, rfl, rfl, ?_⟩
  intro ms hmem
  simp [Gateway.open_session] at hmem

/-- C7 counterexample: right after a successful `open_session`,
`pending_heartbeat` is already set and the first `next_event` loop top
sends the heartbeat with no preceding sleep — the first heartbeat is
emitted immediately on the first event-loop iteration, not delayed by a
random 0–10% of the interval. -/
theorem first_heartbeat_immediate_counterexample :
    ((Gateway.init "tok").open_session false
        (AttemptResult.hello 41250 true)).1.pending_heartbeat = true ∧
    ((Gateway.init "tok").open_session false
        (AttemptResult.hello 41250 true)).1.loopTop.2 = [Action.sendHeartbeat none] ∧
    ((Gateway.init "tok").open_session false (AttemptResult.hello 41250 true)).2.1 =
      [Action.connect DEFAULT_GATEWAY_URL, Action.handshakeSent false none none] :=
  ⟨rfl, rfl, rfl⟩

end Diself
